import Mathlib

/-!
Verification of the combo-box selection-state management and drop-down
placement logic of `qfluentwidgets/components/widgets/combo_box.py`
(classes `ComboItem` and `ComboBoxBase`).

The Python code is shallowly embedded: the item list is a `List ComboItem`,
the selection index is an `Int` (Python ints; `-1` means "none selected"),
the widget's displayed text (`setText`) is a `String` field, and the Qt
signals `currentTextChanged` / `currentIndexChanged` are modelled by an
`emitted` trace that each `.emit(...)` call site appends to.  Python's
`list.insert` clamping semantics for out-of-range and negative indices are
modelled faithfully (`pyInsert`).  The popup-placement part of
`_showComboMenu` is embedded with the windowing layer's sizing oracle
`heightForAnimation` as an explicit function argument, and the points it is
called at are recorded in the result.
-/

/-- One selectable entry, mirroring `ComboItem` (text, icon, userData).
Icons and user data are opaque to the selection logic; they are kept as
`Option` values. -/
structure ComboItem where
  text : String
  icon : Option String
  userData : Option Int
deriving Repr, DecidableEq

/-- A change notification, mirroring the signals `currentTextChanged(str)`
and `currentIndexChanged(int)` of `ComboBoxBase`. -/
inductive Event where
  | textChanged (t : String)
  | indexChanged (i : Int)
deriving Repr, DecidableEq

/-- The selection state of `ComboBoxBase`: the item list `self.items`, the
index `self._currentIndex`, the widget text set via `self.setText`, and the
trace of signals emitted so far. -/
structure ComboBoxState where
  items : List ComboItem
  currentIndex : Int
  displayText : String
  emitted : List Event
deriving Repr, DecidableEq

/-- The freshly constructed state: `self.items = []`,
`self._currentIndex = -1` (from `ComboBoxBase.__init__`). -/
def initState : ComboBoxState := ⟨[], -1, "", []⟩

/-- The Python range check `0 <= index < n` used throughout the class. -/
def inRange (i : Int) (n : Nat) : Prop := 0 ≤ i ∧ i < (n : Int)

instance (i : Int) (n : Nat) : Decidable (inRange i n) :=
  inferInstanceAs (Decidable (0 ≤ i ∧ i < (n : Int)))

/-- `self.items[i].text` for an index known to be in range (the default is
never read under the guards of the source). -/
def itemTextAt (items : List ComboItem) (i : Int) : String :=
  (items.getD i.toNat ⟨"", none, none⟩).text

/-- `ComboBoxBase.setText`: updates the displayed text (the `adjustSize`
call is pure geometry and has no effect on this state). -/
def setText (t : String) (s : ComboBoxState) : ComboBoxState :=
  { s with displayText := t }

/-- `self.currentTextChanged.emit(t)`. -/
def emitTextChanged (t : String) (s : ComboBoxState) : ComboBoxState :=
  { s with emitted := s.emitted ++ [Event.textChanged t] }

/-- `self.currentIndexChanged.emit(i)`. -/
def emitIndexChanged (i : Int) (s : ComboBoxState) : ComboBoxState :=
  { s with emitted := s.emitted ++ [Event.indexChanged i] }

/-- `ComboBoxBase.setCurrentIndex(index)`: early return when
`not 0 <= index < len(self.items)`; otherwise assigns `_currentIndex` and
sets the text to `self.items[index].text`.  No signal is emitted. -/
def setCurrentIndex (i : Int) (s : ComboBoxState) : ComboBoxState :=
  if inRange i s.items.length then
    setText (itemTextAt s.items i) { s with currentIndex := i }
  else s

/-- `ComboBoxBase.currentText()`: bounds-checked, `''` out of range. -/
def currentText (s : ComboBoxState) : String :=
  if inRange s.currentIndex s.items.length then itemTextAt s.items s.currentIndex
  else ""

/-- `ComboBoxBase._onItemClicked(index)`: early return when
`index == self.currentIndex()`; otherwise `setCurrentIndex(index)` then
emit `currentTextChanged(self.currentText())` then
`currentIndexChanged(index)`. -/
def onItemClicked (i : Int) (s : ComboBoxState) : ComboBoxState :=
  if i = s.currentIndex then s
  else
    let s1 := setCurrentIndex i s
    emitIndexChanged i (emitTextChanged (currentText s1) s1)

/-- `ComboBoxBase.addItem(text, icon, userData)`: appends the item; if the
list now has exactly one element, `setCurrentIndex(0)`. -/
def addItem (t : String) (icon : Option String) (ud : Option Int)
    (s : ComboBoxState) : ComboBoxState :=
  let s1 := { s with items := s.items ++ [⟨t, icon, ud⟩] }
  if s1.items.length = 1 then setCurrentIndex 0 s1 else s1

/-- `ComboBoxBase.removeItem(index)`: early return when out of range, then
`self.items.pop(index)`, then the three-way index adjustment of the
source (lines 119-127). -/
def removeItem (i : Int) (s : ComboBoxState) : ComboBoxState :=
  if inRange i s.items.length then
    let s1 := { s with items := s.items.eraseIdx i.toNat }
    if i < s1.currentIndex then
      onItemClicked (s1.currentIndex - 1) s1
    else if i = s1.currentIndex then
      if 0 < i then
        onItemClicked (s1.currentIndex - 1) s1
      else
        let s2 := setCurrentIndex 0 s1
        emitIndexChanged 0 (emitTextChanged (currentText s2) s2)
    else s1
  else s

/-- The effective position at which Python's `list.insert(i, x)` inserts
into a list of length `n`: negative indices count from the end and clamp
at 0, positive indices clamp at `n`. -/
def pyInsertPos (i : Int) (n : Nat) : Nat :=
  if i < 0 then ((n : Int) + i).toNat else min i.toNat n

/-- Python's `list.insert(i, a)` on `l`. -/
def pyInsert (i : Int) (a : α) (l : List α) : List α :=
  l.insertIdx (pyInsertPos i l.length) a

/-- `ComboBoxBase.insertItem(index, text, icon, userData)`:
`self.items.insert(index, item)`, then if `index <= self.currentIndex()`
call `self._onItemClicked(self.currentIndex() + 1)`. -/
def insertItem (i : Int) (t : String) (icon : Option String) (ud : Option Int)
    (s : ComboBoxState) : ComboBoxState :=
  let s1 := { s with items := pyInsert i ⟨t, icon, ud⟩ s.items }
  if i ≤ s1.currentIndex then onItemClicked (s1.currentIndex + 1) s1 else s1

/-- One structural mutation of the item list, for stating the invariant
over arbitrary call sequences. -/
inductive Op where
  | add (t : String) (icon : Option String) (ud : Option Int)
  | insert (i : Int) (t : String) (icon : Option String) (ud : Option Int)
  | remove (i : Int)
deriving Repr, DecidableEq

/-- Apply one mutation. -/
def applyOp (op : Op) (s : ComboBoxState) : ComboBoxState :=
  match op with
  | .add t ic ud => addItem t ic ud s
  | .insert i t ic ud => insertItem i t ic ud s
  | .remove i => removeItem i s

/-- Apply a sequence of mutations in order. -/
def runOps (ops : List Op) (s : ComboBoxState) : ComboBoxState :=
  ops.foldl (fun s op => applyOp op s) s

/-! ## Popup placement (`ComboBoxBase._showComboMenu`, lines 292-326)

The geometric inputs (widget position/size, menu width, menu layout left
margin) are parameters; the windowing layer's sizing oracle
`MenuActionListWidget.heightForAnimation(pos, aniType)` is passed as a
function, and the calls made to it are recorded in the result. -/

/-- The two values of `MenuAnimationType` used by the placement code. -/
inductive AniType where
  | dropDown
  | pullUp
deriving Repr, DecidableEq

/-- A screen point (`QPoint`). -/
structure Point where
  x : Int
  y : Int
deriving Repr, DecidableEq

/-- The geometric inputs of `_showComboMenu`: the widget's global top-left
corner (so that `self.mapToGlobal(p) = widgetGlobal + p`), the widget's
width and height, the menu's width and the left contents margin of its
layout. -/
structure ComboGeometry where
  widgetGlobal : Point
  widgetWidth : Int
  widgetHeight : Int
  menuWidth : Int
  menuMarginLeft : Int
deriving Repr, DecidableEq

/-- `self.mapToGlobal(p)`. -/
def mapToGlobal (g : ComboGeometry) (p : Point) : Point :=
  ⟨g.widgetGlobal.x + p.x, g.widgetGlobal.y + p.y⟩

/-- `x = -menu.width()//2 + menu.layout().contentsMargins().left() +
self.width()//2` (Python `//` is floor division). -/
def menuX (g : ComboGeometry) : Int :=
  Int.fdiv (-g.menuWidth) 2 + g.menuMarginLeft + Int.fdiv g.widgetWidth 2

/-- `pd = self.mapToGlobal(QPoint(x, self.height()))`: the point on the
bottom edge of the widget (the drop-down anchor). -/
def dropDownPoint (g : ComboGeometry) : Point :=
  mapToGlobal g ⟨menuX g, g.widgetHeight⟩

/-- `pu = self.mapToGlobal(QPoint(x, 0))`: the point on the top edge of
the widget (the pull-up anchor). -/
def pullUpPoint (g : ComboGeometry) : Point :=
  mapToGlobal g ⟨menuX g, 0⟩

/-- The observable outcome of `_showComboMenu`: the arguments of the
`heightForAnimation` calls in order, the chosen animation type, and the
position passed to `menu.exec`. -/
structure MenuShowResult where
  oracleQueries : List (Point × AniType)
  aniType : AniType
  execPos : Point
deriving Repr, DecidableEq

/-- `ComboBoxBase._showComboMenu`, placement part: returns `none` when
`self.items` is empty (early return); otherwise computes
`hd = menu.view.heightForAnimation(pd, DROP_DOWN)` and
`hu = menu.view.heightForAnimation(pd, PULL_UP)` — the source passes `pd`,
not `pu`, to the second call — and execs at `pd`/`DROP_DOWN` when
`hd >= hu`, else at `pu`/`PULL_UP`. -/
def showComboMenu (oracle : Point → AniType → Int) (g : ComboGeometry)
    (s : ComboBoxState) : Option MenuShowResult :=
  if s.items = [] then none
  else
    let pd := dropDownPoint g
    let hd := oracle pd AniType.dropDown
    let pu := pullUpPoint g
    let hu := oracle pd AniType.pullUp
    if hu ≤ hd then
      some ⟨[(pd, AniType.dropDown), (pd, AniType.pullUp)], AniType.dropDown, pd⟩
    else
      some ⟨[(pd, AniType.dropDown), (pd, AniType.pullUp)], AniType.pullUp, pu⟩


/-! ## Basic lemmas about the embedded operations -/

theorem setCurrentIndex_of_inRange {i : Int} {s : ComboBoxState}
    (h : inRange i s.items.length) :
    setCurrentIndex i s =
      { s with
        currentIndex := i
        displayText := itemTextAt s.items i } := by
  simp [setCurrentIndex, setText, h]

theorem setCurrentIndex_of_not_inRange {i : Int} {s : ComboBoxState}
    (h : ¬ inRange i s.items.length) : setCurrentIndex i s = s := by
  simp [setCurrentIndex, h]

theorem currentText_of_inRange {s : ComboBoxState}
    (h : inRange s.currentIndex s.items.length) :
    currentText s = itemTextAt s.items s.currentIndex := by
  simp [currentText, h]

theorem currentText_of_not_inRange {s : ComboBoxState}
    (h : ¬ inRange s.currentIndex s.items.length) : currentText s = "" := by
  simp [currentText, h]

theorem onItemClicked_self {i : Int} {s : ComboBoxState}
    (h : i = s.currentIndex) : onItemClicked i s = s := by
  simp [onItemClicked, h]

theorem onItemClicked_of_inRange {i : Int} {s : ComboBoxState}
    (hne : i ≠ s.currentIndex) (h : inRange i s.items.length) :
    onItemClicked i s =
      { s with
        currentIndex := i
        displayText := itemTextAt s.items i
        emitted := s.emitted ++
          [Event.textChanged (itemTextAt s.items i), Event.indexChanged i] } := by
  rw [onItemClicked, if_neg hne]
  rw [setCurrentIndex_of_inRange h]
  simp [currentText, emitTextChanged, emitIndexChanged, h]

theorem onItemClicked_of_not_inRange {i : Int} {s : ComboBoxState}
    (hne : i ≠ s.currentIndex) (h : ¬ inRange i s.items.length) :
    onItemClicked i s =
      { s with
        emitted := s.emitted ++
          [Event.textChanged (currentText s), Event.indexChanged i] } := by
  rw [onItemClicked, if_neg hne]
  rw [setCurrentIndex_of_not_inRange h]
  simp [emitTextChanged, emitIndexChanged]

theorem pyInsertPos_le (i : Int) (n : Nat) : pyInsertPos i n ≤ n := by
  unfold pyInsertPos
  split <;> omega

theorem length_pyInsert (i : Int) (a : α) (l : List α) :
    (pyInsert i a l).length = l.length + 1 :=
  List.length_insertIdx _ _ (pyInsertPos_le i l.length)

theorem length_eraseIdx_of_inRange {i : Int} {l : List ComboItem}
    (h : inRange i l.length) :
    (l.eraseIdx i.toNat).length = l.length - 1 := by
  obtain ⟨h0, h1⟩ := h
  have hlt : i.toNat < l.length := by omega
  have := List.length_eraseIdx_add_one hlt
  omega

/-! ## The reachable-state invariant

The invariant the specification claims (`currentIndex = -1` or in range)
does not quite hold: removing the selected item at index 0 from a
one-element list leaves `currentIndex = 0` with an empty list, because the
`setCurrentIndex(0)` in that branch of `removeItem` is a silent no-op on an
empty list.  The invariant that does hold adds that one extra state
shape. -/

/-- The invariant actually preserved by `addItem`/`insertItem`/`removeItem`:
the claimed one, weakened by the reachable stale state
`items = [] ∧ currentIndex = 0`. -/
def SelInv (s : ComboBoxState) : Prop :=
  s.currentIndex = -1 ∨ inRange s.currentIndex s.items.length ∨
    (s.items.length = 0 ∧ s.currentIndex = 0)

theorem selInv_addItem (t : String) (ic : Option String) (ud : Option Int)
    (s : ComboBoxState) (h : SelInv s) : SelInv (addItem t ic ud s) := by
  obtain ⟨items, ci, dt, em⟩ := s
  unfold SelInv inRange at h
  dsimp only at h
  rw [addItem]
  dsimp only
  by_cases h1 : (items ++ [(⟨t, ic, ud⟩ : ComboItem)]).length = 1
  · rw [if_pos h1]
    have hr : inRange 0 ((items ++ [(⟨t, ic, ud⟩ : ComboItem)]).length) := by
      unfold inRange
      omega
    rw [setCurrentIndex_of_inRange
      (s := ComboBoxState.mk (items ++ [(⟨t, ic, ud⟩ : ComboItem)]) ci dt em) hr]
    unfold SelInv inRange
    dsimp only
    omega
  · rw [if_neg h1]
    unfold SelInv inRange
    dsimp only
    have h2 : (items ++ [(⟨t, ic, ud⟩ : ComboItem)]).length =
        items.length + 1 := by simp
    omega

theorem selInv_insertItem (i : Int) (t : String) (ic : Option String)
    (ud : Option Int) (s : ComboBoxState) (h : SelInv s) :
    SelInv (insertItem i t ic ud s) := by
  obtain ⟨items, ci, dt, em⟩ := s
  unfold SelInv inRange at h
  dsimp only at h
  have hlen : (pyInsert i (⟨t, ic, ud⟩ : ComboItem) items).length =
      items.length + 1 := length_pyInsert i _ items
  rw [insertItem]
  dsimp only
  by_cases hle : i ≤ ci
  · rw [if_pos hle]
    by_cases hr : inRange (ci + 1) ((pyInsert i (⟨t, ic, ud⟩ : ComboItem) items).length)
    · rw [onItemClicked_of_inRange
        (s := ComboBoxState.mk (pyInsert i (⟨t, ic, ud⟩ : ComboItem) items) ci dt em)
        (by dsimp only; omega) hr]
      unfold SelInv inRange
      dsimp only
      unfold inRange at hr
      omega
    · rw [onItemClicked_of_not_inRange
        (s := ComboBoxState.mk (pyInsert i (⟨t, ic, ud⟩ : ComboItem) items) ci dt em)
        (by dsimp only; omega) hr]
      unfold SelInv inRange
      dsimp only
      unfold inRange at hr
      rw [hlen] at hr ⊢
      omega
  · rw [if_neg hle]
    unfold SelInv inRange
    dsimp only
    rw [hlen]
    omega

theorem selInv_removeItem (i : Int) (s : ComboBoxState) (h : SelInv s) :
    SelInv (removeItem i s) := by
  obtain ⟨items, ci, dt, em⟩ := s
  unfold SelInv inRange at h
  dsimp only at h
  rw [removeItem]
  dsimp only
  by_cases hr : inRange i items.length
  · rw [if_pos hr]
    have hlen : (items.eraseIdx i.toNat).length = items.length - 1 :=
      length_eraseIdx_of_inRange hr
    unfold inRange at hr
    obtain ⟨hi0, hi1⟩ := hr
    by_cases hlt : i < ci
    · rw [if_pos hlt]
      have hr1 : inRange (ci - 1) ((items.eraseIdx i.toNat).length) := by
        unfold inRange
        rw [hlen]
        omega
      rw [onItemClicked_of_inRange
        (s := ComboBoxState.mk (items.eraseIdx i.toNat) ci dt em)
        (by dsimp only; omega) hr1]
      unfold SelInv inRange
      dsimp only
      unfold inRange at hr1
      omega
    · rw [if_neg hlt]
      by_cases heq : i = ci
      · rw [if_pos heq]
        by_cases hpos : (0 : Int) < i
        · rw [if_pos hpos]
          have hr1 : inRange (ci - 1) ((items.eraseIdx i.toNat).length) := by
            unfold inRange
            rw [hlen]
            omega
          rw [onItemClicked_of_inRange
            (s := ComboBoxState.mk (items.eraseIdx i.toNat) ci dt em)
            (by dsimp only; omega) hr1]
          unfold SelInv inRange
          dsimp only
          unfold inRange at hr1
          omega
        · rw [if_neg hpos]
          by_cases hr0 : inRange 0 ((items.eraseIdx i.toNat).length)
          · rw [setCurrentIndex_of_inRange
              (s := ComboBoxState.mk (items.eraseIdx i.toNat) ci dt em) hr0]
            unfold SelInv inRange emitIndexChanged emitTextChanged
            dsimp only
            unfold inRange at hr0
            omega
          · rw [setCurrentIndex_of_not_inRange
              (s := ComboBoxState.mk (items.eraseIdx i.toNat) ci dt em) hr0]
            unfold SelInv inRange emitIndexChanged emitTextChanged
            dsimp only
            unfold inRange at hr0
            rw [hlen] at hr0 ⊢
            omega
      · rw [if_neg heq]
        unfold SelInv inRange
        dsimp only
        rw [hlen]
        omega
  · rw [if_neg hr]
    unfold SelInv inRange
    dsimp only
    omega

theorem selInv_applyOp (op : Op) (s : ComboBoxState) (h : SelInv s) :
    SelInv (applyOp op s) := by
  cases op with
  | add t ic ud => exact selInv_addItem t ic ud s h
  | insert i t ic ud => exact selInv_insertItem i t ic ud s h
  | remove i => exact selInv_removeItem i s h

theorem selInv_runOps (ops : List Op) (s : ComboBoxState) (h : SelInv s) :
    SelInv (runOps ops s) := by
  induction ops generalizing s with
  | nil => exact h
  | cons op rest ih =>
    rw [runOps, List.foldl_cons]
    exact ih _ (selInv_applyOp op s h)

theorem setCurrentIndex_emitted (i : Int) (s : ComboBoxState) :
    (setCurrentIndex i s).emitted = s.emitted := by
  rw [setCurrentIndex]
  split <;> rfl

/-! ## The claims -/

/-- C1 counterexample: starting empty, `addItem("A")` then `removeItem(0)`
leaves the item list empty with `currentIndex = 0`, so the claimed
invariant (`currentIndex = -1` or a valid index) is violated: in
`removeItem`'s first-index branch, `setCurrentIndex(0)` is a silent no-op
on the now-empty list and the stale index 0 survives. -/
theorem C1_cex :
    ¬ ((runOps [Op.add "A" none none, Op.remove 0] initState).currentIndex = -1 ∨
        inRange (runOps [Op.add "A" none none, Op.remove 0] initState).currentIndex
          (runOps [Op.add "A" none none, Op.remove 0] initState).items.length) ∧
      (runOps [Op.add "A" none none, Op.remove 0] initState).items = [] := by
  decide

/-- C1 (amended): for every sequence of `addItem`/`insertItem`/`removeItem`
operations applied from the empty initial state, after each operation
`currentIndex` is `-1`, or a valid index `0 ≤ currentIndex < count()`, or —
the one reachable stale shape the original claim misses — the item list is
empty and `currentIndex` is `0` (left behind when the selected item at
index 0 is removed from a one-element list). -/
theorem C1_invariant (ops : List Op) :
    (runOps ops initState).currentIndex = -1 ∨
      inRange (runOps ops initState).currentIndex
        (runOps ops initState).items.length ∨
      ((runOps ops initState).items = [] ∧
        (runOps ops initState).currentIndex = 0) := by
  have h := selInv_runOps ops initState (Or.inl rfl)
  unfold SelInv at h
  rcases h with h | h | h
  · exact Or.inl h
  · exact Or.inr (Or.inl h)
  · exact Or.inr (Or.inr ⟨List.length_eq_zero.mp h.1, h.2⟩)

/-- The concrete state used by the C2 counterexample: a single item "A",
selected (currentIndex 0). -/
def c2State : ComboBoxState := ⟨[⟨"A", none, none⟩], 0, "A", []⟩

/-- C2 counterexample: removing the selected entry at index 0 from the
one-element list leaves the list empty with `currentIndex = 0`, not `-1`
as the claim states for the no-entries-remain case. -/
theorem C2_cex :
    (removeItem 0 c2State).items = [] ∧
      (removeItem 0 c2State).currentIndex = 0 ∧
      ¬ (removeItem 0 c2State).currentIndex = -1 := by
  decide

/-- C2 (amended): for every selection state and in-range index equal to
`currentIndex`, after `removeItem(index)` the new `currentIndex` equals the
old index minus 1 if the old index was greater than 0, and equals 0
otherwise — both when entries remain and when the list becomes empty: in
the empty case the code's `setCurrentIndex(0)` is a no-op and the stale 0
remains instead of the claimed -1. -/
theorem C2_remove_at_current (s : ComboBoxState)
    (h : inRange s.currentIndex s.items.length) :
    (removeItem s.currentIndex s).currentIndex =
      if 0 < s.currentIndex then s.currentIndex - 1 else 0 := by
  obtain ⟨items, ci, dt, em⟩ := s
  unfold inRange at h
  dsimp only at h ⊢
  rw [removeItem]
  dsimp only
  rw [if_pos (show inRange ci items.length from h)]
  have hlen : (items.eraseIdx ci.toNat).length = items.length - 1 :=
    length_eraseIdx_of_inRange h
  rw [if_neg (lt_irrefl ci), if_pos rfl]
  by_cases hpos : (0 : Int) < ci
  · rw [if_pos hpos]
    have hr1 : inRange (ci - 1) ((items.eraseIdx ci.toNat).length) := by
      unfold inRange
      rw [hlen]
      omega
    rw [onItemClicked_of_inRange
      (s := ComboBoxState.mk (items.eraseIdx ci.toNat) ci dt em)
      (by dsimp only; omega) hr1]
    rw [if_pos hpos]
  · rw [if_neg hpos]
    by_cases hr0 : inRange 0 ((items.eraseIdx ci.toNat).length)
    · rw [setCurrentIndex_of_inRange
        (s := ComboBoxState.mk (items.eraseIdx ci.toNat) ci dt em) hr0]
      rw [if_neg hpos]
      rfl
    · rw [setCurrentIndex_of_not_inRange
        (s := ComboBoxState.mk (items.eraseIdx ci.toNat) ci dt em) hr0]
      rw [if_neg hpos]
      unfold emitIndexChanged emitTextChanged
      dsimp only
      omega

/-- The concrete state used by the C2 witness: items A, B, C with B
selected, the removal scenario of the specification. -/
def c2WitState : ComboBoxState :=
  ⟨[⟨"A", none, none⟩, ⟨"B", none, none⟩, ⟨"C", none, none⟩], 1, "B", []⟩

/-- C2 witness: the amended removal rule evaluated at the concrete
three-item state with index 1 selected. -/
theorem C2_remove_at_current_wit :
    inRange c2WitState.currentIndex c2WitState.items.length ∧
      (removeItem c2WitState.currentIndex c2WitState).currentIndex =
        if 0 < c2WitState.currentIndex then c2WitState.currentIndex - 1 else 0 :=
  ⟨by decide, C2_remove_at_current c2WitState (by decide)⟩

/-- Concrete geometry for C3: widget at the global origin, 120 wide, 30
high; menu 100 wide with an 8-pixel left margin. -/
def c3Geometry : ComboGeometry := ⟨⟨0, 0⟩, 120, 30, 100, 8⟩

/-- A sizing oracle for C3 that depends on the anchor point, so that
querying at the wrong anchor is observable. -/
def c3Oracle : Point → AniType → Int := fun p _ => p.y

/-- Concrete selection state for C3: one item, selected. -/
def c3State : ComboBoxState := ⟨[⟨"A", none, none⟩], 0, "A", []⟩

/-- C3: at a concrete popup request, BOTH sizing-oracle queries are made at
the drop-down anchor `pd` (bottom edge of the anchor rectangle): the
source passes `pd`, not `pu`, to `heightForAnimation(..., PULL_UP)`
(combo_box.py line 319), although `pu` differs from `pd` (the widget height
is 30) and the pull-up branch then opens the menu at `pu`. -/
theorem C3_pull_up_queried_at_pd :
    (showComboMenu c3Oracle c3Geometry c3State).map MenuShowResult.oracleQueries =
      some [(dropDownPoint c3Geometry, AniType.dropDown),
            (dropDownPoint c3Geometry, AniType.pullUp)] ∧
      dropDownPoint c3Geometry ≠ pullUpPoint c3Geometry := by
  decide

/-- The concrete state used by the C4 counterexample: one item "A",
selected. -/
def c4State : ComboBoxState := ⟨[⟨"A", none, none⟩], 0, "A", []⟩

/-- C4 counterexample: `_onItemClicked(5)` with only one item leaves the
state unchanged but is NOT silent: there is no bounds check before the
emits, so it emits `currentTextChanged("A")` then `currentIndexChanged(5)`
with the out-of-range index. -/
theorem C4_cex :
    (onItemClicked 5 c4State).currentIndex = 0 ∧
      (onItemClicked 5 c4State).displayText = "A" ∧
      (onItemClicked 5 c4State).emitted =
        [Event.textChanged "A", Event.indexChanged 5] := by
  decide

/-- C4 (amended): `_onItemClicked(index)` is a silent no-op only when
`index = currentIndex`.  For an out-of-range index different from
`currentIndex`, the state (currentIndex, display text, items) is unchanged
but both notifications are still emitted: text-changed with the unchanged
current text, then index-changed with the invalid index.  For a valid
index different from `currentIndex` it sets the index, updates the text,
and emits text-changed then index-changed, in that order. -/
theorem C4_onItemClicked_cases (s : ComboBoxState) (i : Int) :
    (i = s.currentIndex → onItemClicked i s = s) ∧
    (i ≠ s.currentIndex → ¬ inRange i s.items.length →
      (onItemClicked i s).currentIndex = s.currentIndex ∧
      (onItemClicked i s).displayText = s.displayText ∧
      (onItemClicked i s).items = s.items ∧
      (onItemClicked i s).emitted =
        s.emitted ++ [Event.textChanged (currentText s), Event.indexChanged i]) ∧
    (i ≠ s.currentIndex → inRange i s.items.length →
      (onItemClicked i s).currentIndex = i ∧
      (onItemClicked i s).displayText = itemTextAt s.items i ∧
      (onItemClicked i s).items = s.items ∧
      (onItemClicked i s).emitted =
        s.emitted ++
          [Event.textChanged (itemTextAt s.items i), Event.indexChanged i]) := by
  refine ⟨fun h => onItemClicked_self h, fun hne h => ?_, fun hne h => ?_⟩
  · rw [onItemClicked_of_not_inRange hne h]
    exact ⟨rfl, rfl, rfl, rfl⟩
  · rw [onItemClicked_of_inRange hne h]
    exact ⟨rfl, rfl, rfl, rfl⟩

/-- The concrete state used by the C4 witness: items A and B, A selected. -/
def c4WitState : ComboBoxState :=
  ⟨[⟨"A", none, none⟩, ⟨"B", none, none⟩], 0, "A", []⟩

/-- C4 witness: the valid-index branch evaluated at a concrete state. -/
theorem C4_onItemClicked_cases_wit :
    (onItemClicked 1 c4WitState).currentIndex = 1 ∧
      (onItemClicked 1 c4WitState).displayText = itemTextAt c4WitState.items 1 ∧
      (onItemClicked 1 c4WitState).items = c4WitState.items ∧
      (onItemClicked 1 c4WitState).emitted =
        c4WitState.emitted ++
          [Event.textChanged (itemTextAt c4WitState.items 1), Event.indexChanged 1] :=
  (C4_onItemClicked_cases c4WitState 1).2.2 (by decide) (by decide)

/-- C5: for every selection state with a valid selection, `insertItem` at
`index ≤ currentIndex` increments `currentIndex` by exactly one and fires
the selection-change side effects — a text-changed then an index-changed
notification with the new index — while `insertItem` at
`index > currentIndex` leaves `currentIndex` (and the emitted trace)
unchanged. -/
theorem C5_insertItem_shift (s : ComboBoxState) (i : Int) (t : String)
    (ic : Option String) (ud : Option Int)
    (h : inRange s.currentIndex s.items.length) :
    (i ≤ s.currentIndex →
      (insertItem i t ic ud s).currentIndex = s.currentIndex + 1 ∧
      ∃ tx, (insertItem i t ic ud s).emitted =
        s.emitted ++ [Event.textChanged tx, Event.indexChanged (s.currentIndex + 1)]) ∧
    (s.currentIndex < i →
      (insertItem i t ic ud s).currentIndex = s.currentIndex ∧
      (insertItem i t ic ud s).emitted = s.emitted) := by
  obtain ⟨items, ci, dt, em⟩ := s
  unfold inRange at h
  dsimp only at h ⊢
  rw [insertItem]
  dsimp only
  constructor
  · intro hle
    rw [if_pos hle]
    have hr : inRange (ci + 1) ((pyInsert i (⟨t, ic, ud⟩ : ComboItem) items).length) := by
      unfold inRange
      rw [length_pyInsert]
      omega
    rw [onItemClicked_of_inRange
      (s := ComboBoxState.mk (pyInsert i (⟨t, ic, ud⟩ : ComboItem) items) ci dt em)
      (by dsimp only; omega) hr]
    exact ⟨rfl, ⟨itemTextAt (pyInsert i (⟨t, ic, ud⟩ : ComboItem) items) (ci + 1), rfl⟩⟩
  · intro hgt
    rw [if_neg (by omega : ¬ i ≤ ci)]
    exact ⟨rfl, rfl⟩

/-- The concrete state used by the C5 witness: items A and B, B selected
(the insertion scenario of the specification). -/
def c5WitState : ComboBoxState :=
  ⟨[⟨"A", none, none⟩, ⟨"B", none, none⟩], 1, "B", []⟩

/-- C5 witness: inserting "Z" at index 0 before the selected index 1. -/
theorem C5_insertItem_shift_wit :
    (insertItem 0 "Z" none none c5WitState).currentIndex =
        c5WitState.currentIndex + 1 ∧
      ∃ tx, (insertItem 0 "Z" none none c5WitState).emitted =
        c5WitState.emitted ++
          [Event.textChanged tx, Event.indexChanged (c5WitState.currentIndex + 1)] :=
  (C5_insertItem_shift c5WitState 0 "Z" none none (by decide)).1 (by decide)

/-- C6: for every sizing oracle, geometry and nonempty item list, the
placement part of `_showComboMenu` selects DROP_DOWN iff the oracle's
drop-down height `hd` is at least its pull-up height `hu` (so equal
heights choose drop-down), and selects PULL_UP iff `hd < hu`. -/
theorem C6_placement (oracle : Point → AniType → Int) (g : ComboGeometry)
    (s : ComboBoxState) (h : s.items ≠ []) :
    ((showComboMenu oracle g s).map MenuShowResult.aniType =
        some AniType.dropDown ↔
      oracle (dropDownPoint g) AniType.pullUp ≤
        oracle (dropDownPoint g) AniType.dropDown) ∧
    ((showComboMenu oracle g s).map MenuShowResult.aniType =
        some AniType.pullUp ↔
      oracle (dropDownPoint g) AniType.dropDown <
        oracle (dropDownPoint g) AniType.pullUp) := by
  rw [showComboMenu, if_neg h]
  dsimp only
  by_cases hcmp : oracle (dropDownPoint g) AniType.pullUp ≤
      oracle (dropDownPoint g) AniType.dropDown
  · rw [if_pos hcmp]
    constructor
    · simp [hcmp]
    · simp
      omega
  · rw [if_neg hcmp]
    constructor
    · simp
      omega
    · simp
      omega

/-- Concrete geometry for the C6 witness. -/
def c6Geometry : ComboGeometry := ⟨⟨10, 20⟩, 120, 30, 100, 8⟩

/-- Oracle for the C6 witness: 40 available below, 100 above (the
specification's pull-up scenario). -/
def c6Oracle : Point → AniType → Int := fun _ a =>
  match a with
  | AniType.dropDown => 40
  | AniType.pullUp => 100

/-- Concrete selection state for the C6 witness. -/
def c6State : ComboBoxState := ⟨[⟨"A", none, none⟩], 0, "A", []⟩

/-- C6 witness: the placement equivalences instantiated at a concrete
oracle reporting 40 below and 100 above. -/
theorem C6_placement_wit :
    ((showComboMenu c6Oracle c6Geometry c6State).map MenuShowResult.aniType =
        some AniType.dropDown ↔
      c6Oracle (dropDownPoint c6Geometry) AniType.pullUp ≤
        c6Oracle (dropDownPoint c6Geometry) AniType.dropDown) ∧
    ((showComboMenu c6Oracle c6Geometry c6State).map MenuShowResult.aniType =
        some AniType.pullUp ↔
      c6Oracle (dropDownPoint c6Geometry) AniType.dropDown <
        c6Oracle (dropDownPoint c6Geometry) AniType.pullUp) :=
  C6_placement c6Oracle c6Geometry c6State (by decide)

/-- C7: `addItem` on an empty list appends the entry, selects index 0,
shows the entry's text, and emits nothing; `addItem` on a nonempty list
appends and leaves `currentIndex`, the displayed text and the emitted
trace unchanged. -/
theorem C7_addItem (s : ComboBoxState) (t : String) (ic : Option String)
    (ud : Option Int) :
    (s.items = [] →
      (addItem t ic ud s).items = [⟨t, ic, ud⟩] ∧
      (addItem t ic ud s).currentIndex = 0 ∧
      (addItem t ic ud s).displayText = t ∧
      (addItem t ic ud s).emitted = s.emitted) ∧
    (s.items ≠ [] →
      (addItem t ic ud s).items = s.items ++ [⟨t, ic, ud⟩] ∧
      (addItem t ic ud s).currentIndex = s.currentIndex ∧
      (addItem t ic ud s).displayText = s.displayText ∧
      (addItem t ic ud s).emitted = s.emitted) := by
  obtain ⟨items, ci, dt, em⟩ := s
  dsimp only
  constructor
  · intro he
    subst he
    rw [addItem]
    dsimp only
    rw [if_pos (by simp)]
    have hr : inRange 0
        (([] : List ComboItem) ++ [(⟨t, ic, ud⟩ : ComboItem)]).length := by
      unfold inRange
      simp
    rw [setCurrentIndex_of_inRange
      (s := ComboBoxState.mk
        (([] : List ComboItem) ++ [(⟨t, ic, ud⟩ : ComboItem)]) ci dt em) hr]
    exact ⟨rfl, rfl, rfl, rfl⟩
  · intro hne
    rw [addItem]
    dsimp only
    have hc : ¬ ((items ++ [(⟨t, ic, ud⟩ : ComboItem)]).length = 1) := by
      simp only [List.length_append, List.length_cons, List.length_nil]
      intro hc1
      exact hne (List.length_eq_zero.mp (by omega))
    rw [if_neg hc]
    exact ⟨rfl, rfl, rfl, rfl⟩

/-- C7 witness: `addItem("A")` on the empty initial state. -/
theorem C7_addItem_wit :
    (addItem "A" none none initState).items = [⟨"A", none, none⟩] ∧
      (addItem "A" none none initState).currentIndex = 0 ∧
      (addItem "A" none none initState).displayText = "A" ∧
      (addItem "A" none none initState).emitted = initState.emitted :=
  (C7_addItem initState "A" none none).1 rfl

/-- C8: whenever `removeItem` removes the entry at `currentIndex = 0` (the
first-index branch), it always emits a text-changed notification followed
by an index-changed notification carrying index 0 — unconditionally,
including when the list becomes empty. -/
theorem C8_remove_first_emits (s : ComboBoxState)
    (h0 : s.currentIndex = 0) (hne : s.items ≠ []) :
    ∃ tx, (removeItem 0 s).emitted =
      s.emitted ++ [Event.textChanged tx, Event.indexChanged 0] := by
  obtain ⟨items, ci, dt, em⟩ := s
  dsimp only at h0 hne ⊢
  subst h0
  rw [removeItem]
  dsimp only
  have hr : inRange 0 items.length := by
    unfold inRange
    have := List.length_pos.mpr hne
    omega
  rw [if_pos hr]
  rw [if_neg (lt_irrefl (0 : Int)), if_pos rfl, if_neg (lt_irrefl (0 : Int))]
  refine ⟨currentText (setCurrentIndex 0
    (ComboBoxState.mk (items.eraseIdx (0 : Int).toNat) 0 dt em)), ?_⟩
  unfold emitIndexChanged emitTextChanged
  dsimp only
  rw [setCurrentIndex_emitted]
  simp

/-- The concrete state used by the C8 witness: one item, selected. -/
def c8WitState : ComboBoxState := ⟨[⟨"A", none, none⟩], 0, "A", []⟩

/-- C8 witness: removing the only (selected) item still emits both
notifications even though the list becomes empty. -/
theorem C8_remove_first_emits_wit :
    ∃ tx, (removeItem 0 c8WitState).emitted =
      c8WitState.emitted ++ [Event.textChanged tx, Event.indexChanged 0] :=
  C8_remove_first_emits c8WitState rfl (by decide)

/-- C9: `setCurrentIndex(index)` with an out-of-range index is a complete
no-op; with an in-range index it sets `currentIndex` and the displayed
text to that entry's text; in neither case does it emit any
notification. -/
theorem C9_setCurrentIndex (s : ComboBoxState) (i : Int) :
    (¬ inRange i s.items.length → setCurrentIndex i s = s) ∧
    (inRange i s.items.length →
      (setCurrentIndex i s).currentIndex = i ∧
      (setCurrentIndex i s).displayText = itemTextAt s.items i ∧
      (setCurrentIndex i s).items = s.items ∧
      (setCurrentIndex i s).emitted = s.emitted) := by
  refine ⟨fun h => setCurrentIndex_of_not_inRange h, fun h => ?_⟩
  rw [setCurrentIndex_of_inRange h]
  exact ⟨rfl, rfl, rfl, rfl⟩

/-- The concrete state used by the C9 witness. -/
def c9WitState : ComboBoxState :=
  ⟨[⟨"A", none, none⟩, ⟨"B", none, none⟩], 0, "A", []⟩

/-- C9 witness: the out-of-range no-op at index 5 and the in-range update
at index 1, both at a concrete two-item state. -/
theorem C9_setCurrentIndex_wit :
    (setCurrentIndex 5 c9WitState = c9WitState) ∧
      (setCurrentIndex 1 c9WitState).currentIndex = 1 ∧
      (setCurrentIndex 1 c9WitState).displayText = itemTextAt c9WitState.items 1 ∧
      (setCurrentIndex 1 c9WitState).items = c9WitState.items ∧
      (setCurrentIndex 1 c9WitState).emitted = c9WitState.emitted :=
  ⟨(C9_setCurrentIndex c9WitState 5).1 (by decide),
    (C9_setCurrentIndex c9WitState 1).2 (by decide)⟩

/-- C10 counterexample: `insertItem(-1, "A")` on the empty state DOES
select the inserted entry: Python's `list.insert` accepts the negative
index, `-1 <= currentIndex` holds because `currentIndex` is `-1`, and the
selection path runs — `currentIndex` becomes 0, the text is applied and
both notifications fire. -/
theorem C10_cex :
    (insertItem (-1) "A" none none initState).currentIndex = 0 ∧
      (insertItem (-1) "A" none none initState).displayText = "A" ∧
      (insertItem (-1) "A" none none initState).emitted =
        [Event.textChanged "A", Event.indexChanged 0] := by
  decide

/-- C10 (amended): for a NON-NEGATIVE index, `insertItem` into an empty
selection state (no items, `currentIndex = -1`) inserts the entry but does
not select it: `currentIndex` stays `-1`, the displayed text is unchanged
and nothing is emitted — unlike `addItem`, which selects the first entry
it appends to an empty list.  (A negative index is compared raw against
`currentIndex = -1`, triggers the selection path, and selects index 0, as
the counterexample shows.) -/
theorem C10_insert_empty_no_select (s : ComboBoxState) (i : Int)
    (t : String) (ic : Option String) (ud : Option Int)
    (hitems : s.items = []) (hci : s.currentIndex = -1) (hi : 0 ≤ i) :
    (insertItem i t ic ud s).items = [⟨t, ic, ud⟩] ∧
    (insertItem i t ic ud s).currentIndex = -1 ∧
    (insertItem i t ic ud s).displayText = s.displayText ∧
    (insertItem i t ic ud s).emitted = s.emitted ∧
    (addItem t ic ud s).currentIndex = 0 := by
  obtain ⟨items, ci, dt, em⟩ := s
  dsimp only at hitems hci ⊢
  subst hitems
  subst hci
  rw [insertItem]
  dsimp only
  rw [if_neg (by omega : ¬ i ≤ (-1 : Int))]
  have hpos : pyInsertPos i ([] : List ComboItem).length = 0 := by
    unfold pyInsertPos
    simp only [List.length_nil]
    split <;> omega
  refine ⟨?_, rfl, rfl, rfl, rfl⟩
  show pyInsert i (⟨t, ic, ud⟩ : ComboItem) [] = [⟨t, ic, ud⟩]
  rw [pyInsert, hpos]
  rfl

/-- The concrete state used by the C10 witness: empty list, no selection,
some stale display text. -/
def c10WitState : ComboBoxState := ⟨[], -1, "w", []⟩

/-- C10 witness: `insertItem(2, "A")` into the empty state inserts but
does not select, while `addItem("A")` on the same state selects. -/
theorem C10_insert_empty_no_select_wit :
    (insertItem 2 "A" none none c10WitState).items = [⟨"A", none, none⟩] ∧
      (insertItem 2 "A" none none c10WitState).currentIndex = -1 ∧
      (insertItem 2 "A" none none c10WitState).displayText =
        c10WitState.displayText ∧
      (insertItem 2 "A" none none c10WitState).emitted = c10WitState.emitted ∧
      (addItem "A" none none c10WitState).currentIndex = 0 :=
  C10_insert_empty_no_select c10WitState 2 "A" none none rfl rfl (by decide)
